import Mathlib

/-!
Verification development for the beancount grammar engine
(`src/python/beancount/parser/grammar.c`, a Bison 3.0.4 generated LALR(1)
parser, and its exported header `src/python/beancount/parser/grammar.h`).

The embedding below transcribes, from the C source:
  * the parser tables (`yypact`, `yydefact`, `yytable`, `yycheck`,
    `yypgoto`, `yydefgoto`, `yyr1`, `yyr2`, `yytranslate`);
  * the semantic actions of the rule switch in `yyparse` (as a rule-action
    table mirrored one-to-one from the `case` arms, including the `BUILDY`
    macro calls with their method names and argument formats);
  * the driver loop of `yyparse` (`yybackup`, `yydefault`, `yyreduce`,
    `yyerrlab`, `yyerrorlab`, `yyerrlab1`, accept/abort), with the stack,
    lookahead, location and error-status handling;
  * the helpers `build_grammar_error_from_exception` and `yyerror`.

Python objects are modelled by the inductive `Val`; the Builder (a Python
object living outside src/) is a parameter: a function from method name and
arguments to a result or a raised exception.  Every invocation of a builder
method is recorded in an ordered call log, which is the observable output
of the engine together with the accept/abort result of `yyparse`.
-/

namespace BeanG


/-- Exact-fraction model of the Python `Decimal` values that flow through
the number actions.  The host `decimal` module (arbitrary precision,
configured rounding) lives outside src/; the grammar actions only combine
values with `PyNumber_*`, modelled here exactly.  Fractions are kept
unnormalized; `Frac.toRat` reads off the rational value. -/
structure Frac where
  n : Int
  d : Int
  deriving DecidableEq

/-- Rational value of a fraction. -/
def Frac.toRat (f : Frac) : Rat := (f.n : Rat) / (f.d : Rat)

/-- Exact addition. -/
def Frac.add (a b : Frac) : Frac := ⟨a.n * b.d + b.n * a.d, a.d * b.d⟩

/-- Exact subtraction. -/
def Frac.sub (a b : Frac) : Frac := ⟨a.n * b.d - b.n * a.d, a.d * b.d⟩

/-- Exact multiplication. -/
def Frac.mul (a b : Frac) : Frac := ⟨a.n * b.n, a.d * b.d⟩

/-- Exact division. -/
def Frac.div (a b : Frac) : Frac := ⟨a.n * b.d, a.d * b.n⟩

/-- Negation. -/
def Frac.neg (a : Frac) : Frac := ⟨-a.n, a.d⟩

/-- A whole number. -/
def Frac.ofInt (n : Int) : Frac := ⟨n, 1⟩

/-- Model of the `PyObject*` values marshalled between the lexer, the
grammar actions and the Builder.  Token payloads (dates, accounts,
currencies, strings, tags, links, keys, booleans, numbers) are tagged;
`node m args` stands for the object returned by a Builder construction
method `m`, and `list` for the lists produced by `handle_list`. -/
inductive Val where
  | none
  | bool (b : Bool)
  | int (n : Int)
  | num (q : Frac)
  | str (s : String)
  | char (c : Char)
  | date (s : String)
  | account (s : String)
  | currency (s : String)
  | tag (s : String)
  | link (s : String)
  | key (s : String)
  | list (items : List Val)
  | node (method : String) (args : List Val)

/-- Model of the semantic-value union `YYSTYPE` of grammar.c: a `character`,
a `PyObject*`, or the `pairobj` pair of two objects (used by the
`amount_tolerance` rules). -/
inductive SVal where
  | char (c : Char)
  | obj (v : Val)
  | pair (fst snd : Val)

/-- Location type `YYLTYPE`. -/
structure Loc where
  first_line : Int
  first_column : Int
  last_line : Int
  last_column : Int

/-- Initial location `{1, 1, 1, 1}` (the Bison default `yyloc_default`). -/
def loc0 : Loc := ⟨1, 1, 1, 1⟩

/-- A token as delivered by the lexer: external token code, semantic value,
location, and the value of the lexer global `yylineno` at the time the
token is returned.  The lexer itself is not part of src/, so token streams
are inputs of the model. -/
structure Token where
  code : Nat
  val : SVal
  loc : Loc
  lineno : Int

/-- A recorded builder invocation: method name and arguments. -/
abbrev BCall := String × List Val

/-- The Builder: one Python method call; `.error (ptype, pvalue)` models a
raised exception (a NULL return with the exception context set). -/
abbrev Builder := String → List Val → Except (Val × Val) Val

/-- Environment of a parse: `yy_filename`, `yy_firstline` and the builder
object, all installed by the parse driver before `yyparse` runs. -/
structure Env where
  fname : String
  firstline : Int
  builder : Builder

/-! ### The Bison tables, transcribed from grammar.c -/

/-- Table `yypact` (grammar.c lines 663-685); `-75` is the default marker. -/
def yypact : List Int := [
  -75, -75, 95, 37, -75, -3, -75, 8, -75, -27,
  1, -1, 34, 38, 128, -75, -75, -75, -75, -75,
  -75, -75, -75, -75, -75, -75, -75, -75, -75, -75,
  -75, -75, -75, -75, -75, -75, 25, 25, 40, 25,
  13, -75, -75, -75, 61, 80, 84, -4, 93, 49,
  94, 96, 103, -75, -75, 136, -75, -75, 25, -75,
  25, -75, 98, 104, 25, 25, 123, 124, 98, 125,
  127, -75, 2, -75, -75, -75, 98, 98, 98, -75,
  -5, 25, -75, -75, -7, -75, -75, 25, 25, 53,
  25, 25, -75, 25, -75, -75, -75, -75, -75, -75,
  -75, 157, 98, 98, 98, 98, 98, -75, -75, 138,
  -75, -75, 25, -75, 169, 169, -75, -75, -75, -75,
  -75, -75, -75, 185, -75, 86, -75, -75, 51, 51,
  169, -75, -75, 141, -75, 169, 169, 169, 169, 169,
  -14, -75, -75, -75, 169, 70, -75, -75, -75, 148,
  -75, -75, -75, -75, -75, -75, -75, 53, 25, -75,
  20, -75, -75, 179, 72, 129, -75, 98, 98, -75,
  -75, -75, -12, 166, 15, -75, 7, -75, 25, 25,
  98, -75, -75, 129, 129, -75, -75, -75, 149, -75,
  -75, -75]

/-- Table `yydefact` (grammar.c lines 690-711). -/
def yydefact : List Nat := [
  2, 107, 0, 0, 106, 11, 8, 12, 97, 0,
  0, 0, 0, 0, 0, 98, 83, 99, 100, 85,
  86, 92, 87, 84, 91, 88, 89, 90, 105, 101,
  102, 103, 104, 1, 10, 9, 0, 0, 0, 0,
  0, 5, 4, 3, 0, 0, 0, 0, 0, 0,
  0, 0, 0, 2, 6, 0, 52, 53, 0, 94,
  0, 95, 0, 2, 0, 0, 0, 0, 0, 0,
  0, 21, 0, 7, 93, 96, 0, 0, 0, 13,
  0, 0, 50, 49, 2, 2, 2, 0, 0, 0,
  0, 0, 81, 0, 25, 22, 24, 23, 2, 19,
  18, 0, 0, 0, 0, 0, 0, 62, 2, 0,
  55, 56, 0, 47, 57, 58, 2, 2, 61, 2,
  2, 2, 44, 26, 20, 0, 16, 17, 14, 15,
  60, 51, 2, 0, 48, 59, 79, 78, 80, 82,
  2, 46, 45, 63, 54, 2, 28, 29, 27, 0,
  40, 37, 36, 38, 35, 39, 43, 41, 0, 42,
  0, 34, 33, 68, 0, 2, 69, 0, 0, 30,
  76, 77, 71, 65, 0, 75, 0, 72, 0, 0,
  2, 66, 70, 2, 2, 32, 31, 64, 0, 73,
  74, 67]

/-- Table `yypgoto` (grammar.c lines 715-722). -/
def yypgoto : List Int := [
  -75, 0, -75, -36, -75, -16, -75, -75, -75, -75,
  71, -75, -75, -52, -75, -75, -75, -75, -75, -75,
  -75, -75, -75, -42, -75, 16, -75, -75, -75, -75,
  -74, -75, -75, -75, -75, -75, -75, -75, -75, -75,
  -75, -75, -75]

/-- Table `yydefgoto` (grammar.c lines 725-732). -/
def yydefgoto : List Int := [
  -1, 113, 53, 56, 15, 89, 72, 16, 149, 141,
  134, 158, 123, 114, 84, 17, 18, 19, 112, 20,
  21, 22, 23, 90, 81, 174, 175, 164, 166, 176,
  177, 24, 25, 26, 93, 27, 28, 29, 30, 31,
  32, 2, 3]

/-- Table `yytable` (grammar.c lines 737-759). -/
def yytable : List Int := [
  1, 57, 34, 59, 61, 146, -64, 54, 55, 109,
  94, 147, 102, 35, 103, 104, 105, 106, 54, 55,
  36, 182, 74, 183, 75, 54, 55, 184, 85, 86,
  54, 55, -64, 180, 115, 145, 98, 33, 110, 107,
  65, 76, 77, 78, 38, 108, 80, 95, 37, 96,
  97, 116, 117, 71, 119, 120, 130, 121, 60, 181,
  99, 100, 101, 83, 135, 136, 79, 137, 138, 139,
  103, 104, 103, 104, 105, 106, 132, 54, 55, 39,
  144, 167, 168, 40, 111, 58, 125, 126, 127, 128,
  129, 76, 77, 78, 67, -108, 4, 118, 122, 5,
  6, 7, 8, 159, 62, 103, 104, 105, 106, 189,
  190, 150, 151, 152, 153, 154, 79, 155, 163, 76,
  77, 78, 161, 63, 162, 178, 179, 64, 169, 157,
  143, 9, 10, 11, 12, 13, 66, 14, 68, 69,
  148, 73, 185, 186, 79, 156, 70, 41, 82, 173,
  76, 77, 78, 42, 43, 44, 45, 46, 47, 48,
  49, 50, 51, 52, 173, 172, 87, 173, 173, 88,
  91, 170, 92, 133, 171, 79, 103, 104, 105, 106,
  187, 124, 131, 187, 187, 103, 104, 105, 106, 140,
  145, 160, 165, 191, 142, 0, 188]

/-- Table `yycheck` (grammar.c lines 761-783). -/
def yycheck : List Int := [
  0, 37, 5, 39, 40, 19, 18, 5, 6, 16,
  8, 25, 17, 5, 19, 20, 21, 22, 5, 6,
  47, 14, 58, 16, 60, 5, 6, 20, 64, 65,
  5, 6, 44, 18, 86, 49, 72, 0, 45, 44,
  44, 21, 22, 23, 45, 81, 62, 45, 47, 47,
  48, 87, 88, 53, 90, 91, 108, 93, 45, 44,
  76, 77, 78, 63, 116, 117, 46, 119, 120, 121,
  19, 20, 19, 20, 21, 22, 112, 5, 6, 45,
  132, 9, 10, 45, 84, 45, 102, 103, 104, 105,
  106, 21, 22, 23, 45, 0, 1, 44, 98, 4,
  5, 6, 7, 145, 43, 19, 20, 21, 22, 183,
  184, 41, 42, 43, 44, 45, 46, 47, 160, 21,
  22, 23, 158, 43, 160, 167, 168, 43, 164, 145,
  44, 36, 37, 38, 39, 40, 43, 42, 44, 43,
  140, 5, 178, 179, 46, 145, 43, 19, 44, 165,
  21, 22, 23, 25, 26, 27, 28, 29, 30, 31,
  32, 33, 34, 35, 180, 165, 43, 183, 184, 45,
  45, 42, 45, 4, 45, 46, 19, 20, 21, 22,
  180, 24, 44, 183, 184, 19, 20, 21, 22, 4,
  49, 43, 13, 44, 123, -1, 180]

/-- Table `yyr1` (grammar.c lines 812-825): left-hand-side symbol of each rule. -/
def yyr1 : List Nat := [
  0, 51, 52, 53, 53, 53, 54, 54, 55, 55,
  55, 55, 55, 56, 56, 56, 56, 56, 56, 56,
  56, 57, 57, 57, 57, 57, 58, 59, 59, 59,
  60, 60, 60, 60, 61, 62, 62, 62, 62, 62,
  62, 62, 62, 62, 63, 63, 63, 64, 64, 65,
  65, 65, 66, 67, 68, 69, 69, 70, 71, 72,
  73, 74, 75, 75, 76, 76, 77, 77, 78, 78,
  79, 80, 80, 80, 80, 81, 81, 81, 82, 83,
  84, 85, 86, 87, 87, 87, 87, 87, 87, 87,
  87, 87, 87, 88, 89, 90, 90, 91, 91, 91,
  91, 91, 91, 91, 92, 92, 92, 92, 93]

/-- Table `yyr2` (grammar.c lines 828-841): length of each rule's right-hand side. -/
def yyr2 : List Nat := [
  0, 2, 0, 1, 1, 1, 1, 2, 1, 2,
  2, 1, 1, 1, 3, 3, 3, 3, 2, 2,
  3, 1, 2, 2, 2, 2, 5, 1, 1, 1,
  5, 7, 7, 4, 4, 1, 1, 1, 1, 1,
  1, 1, 1, 1, 1, 2, 2, 1, 2, 1,
  1, 3, 3, 3, 7, 1, 1, 5, 5, 6,
  6, 2, 2, 4, 1, 1, 2, 4, 1, 2,
  3, 1, 1, 3, 3, 1, 1, 1, 6, 6,
  6, 1, 6, 1, 1, 1, 1, 1, 1, 1,
  1, 1, 1, 4, 3, 3, 4, 1, 1, 1,
  1, 1, 1, 1, 2, 2, 2, 1, 1]

/-- Terminal symbol names, the first 51 entries of `yytname`
(grammar.c lines 616-634), used to build verbose error messages. -/
def yytnameTerminals : List String := [
  "$end", "error", "$undefined", "LEX_ERROR", "INDENT", "EOL", "COMMENT",
  "SKIPPED", "PIPE", "ATAT", "AT", "LCURLCURL", "RCURLCURL", "LCURL",
  "RCURL", "EQUAL", "COMMA", "TILDE", "HASH", "ASTERISK", "SLASH", "PLUS",
  "MINUS", "LPAREN", "RPAREN", "FLAG", "TXN", "BALANCE", "OPEN", "CLOSE",
  "COMMODITY", "PAD", "EVENT", "PRICE", "NOTE", "DOCUMENT", "PUSHTAG",
  "POPTAG", "OPTION", "INCLUDE", "PLUGIN", "BOOL", "DATE", "ACCOUNT",
  "CURRENCY", "STRING", "NUMBER", "TAG", "LINK", "KEY", "NEGATIVE"]

/-- Lookup in `yypact` (out-of-range reads never happen for states 0..191). -/
def pactAt (s : Nat) : Int := yypact.getD s (-75)

/-- Lookup in `yydefact`. -/
def defactAt (s : Nat) : Nat := yydefact.getD s 0

/-- Guarded lookup in `yytable` at an `Int` index. -/
def tableAt (i : Int) : Int := if 0 ≤ i then yytable.getD i.toNat 0 else 0

/-- Guarded lookup in `yycheck` at an `Int` index; `-1` never matches a
symbol or state number. -/
def checkAt (i : Int) : Int := if 0 ≤ i then yycheck.getD i.toNat (-1) else -1

/-- Lookup in `yypgoto` indexed by `lhs - YYNTOKENS`. -/
def pgotoAt (i : Nat) : Int := yypgoto.getD i (-75)

/-- Lookup in `yydefgoto` indexed by `lhs - YYNTOKENS`. -/
def defgotoAt (i : Nat) : Int := yydefgoto.getD i 0

/-- Lookup in `yyr1`. -/
def r1At (r : Nat) : Nat := yyr1.getD r 0

/-- Lookup in `yyr2`. -/
def r2At (r : Nat) : Nat := yyr2.getD r 0

/-- The macro `YYTRANSLATE` with the `yytranslate` table of grammar.c:
external token code to internal symbol number ( `0 ↦ 0` for `$end`,
`256 ↦ 1` for `error`, `258..305 ↦ 3..50`, everything else to
`YYUNDEFTOK = 2`). -/
def yytranslate (c : Nat) : Nat :=
  if c = 0 then 0
  else if c = 256 then 1
  else if 258 ≤ c ∧ c ≤ 305 then c - 255
  else 2

/-! ### Semantic actions

The rule switch of `yyparse` (grammar.c lines 1613-2296) is transcribed as
a table from rule number to an `Action` description, interpreted by
`applyAction` below.  `$i` denotes the i-th right-hand-side symbol
(`yyvsp[i - yylen]` in the C).  Rules without a `case` arm perform the
Bison default action `$$ = $1`. -/

/-- One argument of a builder call, mirroring the format characters of
`PyObject_CallMethod`: `file`/`line` are the two `FILE_LINE_ARGS`
(`yy_filename`, `(yyloc).first_line + yy_firstline`); `lineno` is
`yylineno + yy_firstline` (used by the direct call in rule 74);
`noneV`/`trueV`/`falseV` are `Py_None`/`Py_True`/`Py_False`;
`obj i` is `$i`'s `pyobj`, `chr i` is `$i`'s `character` (format `b`),
`pair1 i`/`pair2 i` are `$i`'s `pairobj.pyobj1`/`.pyobj2`. -/
inductive Arg where
  | file
  | line
  | lineno
  | noneV
  | trueV
  | falseV
  | obj (i : Nat)
  | chr (i : Nat)
  | pair1 (i : Nat)
  | pair2 (i : Nat)

/-- A semantic action of one grammar rule. -/
inductive Action where
  | defaultAct
  | setChar (c : Char)
  | setNone
  | pass (i : Nat)
  | add (i j : Nat)
  | sub (i j : Nat)
  | mul (i j : Nat)
  | div (i j : Nat)
  | neg (i : Nat)
  | call (m : String) (args : List Arg)
  | callPair (m : String) (args : List Arg) (snd : Arg)
  | warnCall (msg : String) (m : String) (args : List Arg)

/-- The rule-action table, one entry per `case` arm of the switch in
`yyparse`; rule numbers are Bison's.  Rules absent from the table have the
default action `$$ = $1`. -/
def ruleActions : List (Nat × Action) := [
  (3, Action.setChar '*'),                                            -- txn: TXN
  (4, Action.pass 1),                                                 -- txn: FLAG
  (5, Action.setChar '*'),                                            -- txn: ASTERISK
  (13, Action.pass 1),                                                -- number_expr: NUMBER
  (14, Action.add 1 3),                                               -- PyNumber_Add
  (15, Action.sub 1 3),                                               -- PyNumber_Subtract
  (16, Action.mul 1 3),                                               -- PyNumber_Multiply
  (17, Action.div 1 3),                                               -- PyNumber_TrueDivide
  (18, Action.neg 2),                                                 -- PyNumber_Negative
  (19, Action.pass 2),                                                -- unary plus
  (20, Action.pass 2),                                                -- parentheses
  (21, Action.call "txn_field_new" [Arg.noneV]),
  (22, Action.call "txn_field_STRING" [Arg.obj 1, Arg.obj 2]),
  (23, Action.call "txn_field_LINK" [Arg.obj 1, Arg.obj 2]),
  (24, Action.call "txn_field_TAG" [Arg.obj 1, Arg.obj 2]),
  (25, Action.call "txn_field_PIPE" [Arg.obj 1, Arg.noneV]),
  (26, Action.call "transaction" [Arg.file, Arg.line, Arg.obj 1, Arg.chr 2, Arg.obj 3, Arg.obj 5]),
  (27, Action.setChar '\x00'),                                        -- optflag: empty
  (28, Action.setChar '*'),                                           -- optflag: ASTERISK
  (30, Action.call "posting" [Arg.file, Arg.line, Arg.obj 3, Arg.obj 4, Arg.noneV, Arg.falseV, Arg.chr 2]),
  (31, Action.call "posting" [Arg.file, Arg.line, Arg.obj 3, Arg.obj 4, Arg.obj 6, Arg.falseV, Arg.chr 2]),
  (32, Action.call "posting" [Arg.file, Arg.line, Arg.obj 3, Arg.obj 4, Arg.obj 6, Arg.trueV, Arg.chr 2]),
  (33, Action.call "posting" [Arg.file, Arg.line, Arg.obj 3, Arg.noneV, Arg.noneV, Arg.falseV, Arg.chr 2]),
  (34, Action.call "key_value" [Arg.obj 2, Arg.obj 3]),
  (42, Action.pass 1),
  (43, Action.setNone),
  (44, Action.setNone),
  (45, Action.call "handle_list" [Arg.obj 1, Arg.obj 2]),
  (46, Action.call "handle_list" [Arg.obj 1, Arg.obj 2]),
  (47, Action.setNone),
  (48, Action.call "handle_list" [Arg.obj 1, Arg.obj 2]),
  (49, Action.setNone),
  (50, Action.call "handle_list" [Arg.noneV, Arg.obj 1]),
  (51, Action.call "handle_list" [Arg.obj 1, Arg.obj 3]),
  (52, Action.call "pushtag" [Arg.obj 2]),
  (53, Action.call "poptag" [Arg.obj 2]),
  (54, Action.call "open" [Arg.file, Arg.line, Arg.obj 1, Arg.obj 3, Arg.obj 4, Arg.obj 5, Arg.obj 7]),
  (55, Action.pass 1),
  (56, Action.setNone),
  (57, Action.call "close" [Arg.file, Arg.line, Arg.obj 1, Arg.obj 3, Arg.obj 5]),
  (58, Action.call "commodity" [Arg.file, Arg.line, Arg.obj 1, Arg.obj 3, Arg.obj 5]),
  (59, Action.call "pad" [Arg.file, Arg.line, Arg.obj 1, Arg.obj 3, Arg.obj 4, Arg.obj 6]),
  (60, Action.call "balance" [Arg.file, Arg.line, Arg.obj 1, Arg.obj 3, Arg.pair1 4, Arg.pair2 4, Arg.obj 6]),
  (61, Action.call "amount" [Arg.obj 1, Arg.obj 2]),
  (62, Action.callPair "amount" [Arg.obj 1, Arg.obj 2] Arg.noneV),
  (63, Action.callPair "amount" [Arg.obj 1, Arg.obj 4] (Arg.obj 3)),
  (64, Action.setNone),
  (65, Action.pass 1),
  (66, Action.call "compound_amount" [Arg.obj 1, Arg.noneV, Arg.obj 2]),
  (67, Action.call "compound_amount" [Arg.obj 1, Arg.obj 3, Arg.obj 4]),
  (68, Action.call "position" [Arg.file, Arg.line, Arg.obj 1, Arg.noneV]),
  (69, Action.call "position" [Arg.file, Arg.line, Arg.obj 1, Arg.obj 2]),
  (70, Action.call "lot_spec" [Arg.obj 2]),
  (71, Action.setNone),
  (72, Action.call "handle_list" [Arg.noneV, Arg.obj 1]),
  (73, Action.call "handle_list" [Arg.obj 1, Arg.obj 3]),
  (74, Action.warnCall "Usage of slash as cost separate is deprecated (/)"
       "handle_list" [Arg.obj 1, Arg.obj 3]),
  (75, Action.pass 1),
  (76, Action.pass 1),
  (77, Action.pass 1),
  (78, Action.call "price" [Arg.file, Arg.line, Arg.obj 1, Arg.obj 3, Arg.obj 4, Arg.obj 6]),
  (79, Action.call "event" [Arg.file, Arg.line, Arg.obj 1, Arg.obj 3, Arg.obj 4, Arg.obj 6]),
  (80, Action.call "note" [Arg.file, Arg.line, Arg.obj 1, Arg.obj 3, Arg.obj 4, Arg.obj 6]),
  (82, Action.call "document" [Arg.file, Arg.line, Arg.obj 1, Arg.obj 3, Arg.obj 4, Arg.obj 6]),
  (92, Action.pass 1),
  (93, Action.call "option" [Arg.file, Arg.line, Arg.obj 2, Arg.obj 3]),
  (94, Action.call "include" [Arg.file, Arg.line, Arg.obj 2]),
  (95, Action.call "plugin" [Arg.file, Arg.line, Arg.obj 2, Arg.noneV]),
  (96, Action.call "plugin" [Arg.file, Arg.line, Arg.obj 2, Arg.obj 3]),
  (104, Action.pass 1),                                               -- declarations directive
  (105, Action.call "handle_list" [Arg.obj 1, Arg.obj 2]),                  -- declarations entry
  (106, Action.pass 1),                                               -- declarations error
  (107, Action.setNone),                                              -- declarations: empty
  (108, Action.call "store_result" [Arg.obj 1])]                         -- file: declarations

/-- Action of a rule number. -/
def ruleAction (r : Nat) : Action := (ruleActions.lookup r).getD .defaultAct

/-! ### Value helpers -/

/-- Reading the `pyobj` member of the semantic union. -/
def getObj : SVal → Val
  | .obj v => v
  | .pair v _ => v
  | .char _ => .none

/-- Reading the `character` member of the semantic union. -/
def getChar : SVal → Char
  | .char c => c
  | _ => '\x00'

/-- Reading `pairobj.pyobj1`. -/
def getPair1 : SVal → Val
  | .pair a _ => a
  | .obj v => v
  | .char _ => .none

/-- Reading `pairobj.pyobj2`. -/
def getPair2 : SVal → Val
  | .pair _ b => b
  | _ => .none

/-- Model of `PyNumber_Add` on Decimal operands. -/
def pyAdd : Val → Val → Val
  | .num a, .num b => .num (a.add b)
  | _, _ => .none

/-- Model of `PyNumber_Subtract`. -/
def pySub : Val → Val → Val
  | .num a, .num b => .num (a.sub b)
  | _, _ => .none

/-- Model of `PyNumber_Multiply`. -/
def pyMul : Val → Val → Val
  | .num a, .num b => .num (a.mul b)
  | _, _ => .none

/-- Model of `PyNumber_TrueDivide`.  The host `decimal` context (precision
and rounding, outside src/) is modelled by exact division. -/
def pyDiv : Val → Val → Val
  | .num a, .num b => .num (a.div b)
  | _, _ => .none

/-- Model of `PyNumber_Negative`. -/
def pyNeg : Val → Val
  | .num a => .num a.neg
  | _ => .none

/-! ### The parser state and driver loop -/

/-- One entry of the (merged) state/value/location stacks
`yyss`/`yyvs`/`yyls`.  The three C stacks always move in lockstep, so a
single stack of triples is faithful. -/
structure Frame where
  st : Nat
  v : SVal
  loc : Loc

/-- The lookahead `yychar`: `YYEMPTY`, `YYEOF`, or an external token code. -/
inductive Look where
  | empty
  | eof
  | tok (code : Nat)

/-- The control labels of `yyparse`'s goto graph that the model steps
between; `backup` covers `yynewstate`/`yysetstate`/`yybackup`. -/
inductive Mode where
  | backup
  | reduce (r : Nat)
  | errlab
  | errlab1

/-- The mutable state of `yyparse` (plus the recorded builder-call log and
the lexer globals `yylineno` and the remaining token stream). -/
structure PState where
  mode : Mode
  stack : List Frame          -- top first; never empty (state 0 at bottom)
  yystate : Nat
  tokens : List Token
  yychar : Look
  yylval : SVal
  yylloc : Loc
  yylineno : Int
  yyerrstatus : Nat
  yynerrs : Nat
  errRange1 : Loc             -- yyerror_range[1]
  calls : List BCall

/-- Result of a parse: `result` is `yyparse`'s return value (0 accept,
1 abort, 2 memory exhausted; 99 marks model fuel exhaustion and is never
produced on the runs proved about below), with the builder-call log and
the error count. -/
structure ParseOut where
  result : Nat
  calls : List BCall
  nerrs : Nat

/-- Append one builder invocation to the log. -/
def emit (calls : List BCall) (m : String) (args : List Val) : List BCall :=
  calls ++ [(m, args)]

/-- Package a finished parse. -/
def finish (r : Nat) (st : PState) : ParseOut :=
  { result := r, calls := st.calls, nerrs := st.yynerrs }

/-- The `BUILDY` macro: invoke the builder method; on a NULL result run
`build_grammar_error_from_exception` (which calls the builder's
`build_grammar_error` with `yy_filename`, `yylineno + yy_firstline`, the
exception value and the exception type) and signal `YYERROR` (`none`). -/
def buildy (env : Env) (lineno : Int) (calls : List BCall) (m : String)
    (args : List Val) : List BCall × Option Val :=
  let calls1 := emit calls m args
  match env.builder m args with
  | .ok v => (calls1, some v)
  | .error e =>
      (emit calls1 "build_grammar_error"
        [.str env.fname, .int (lineno + env.firstline), e.2, e.1], none)

/-- Evaluate one call argument. -/
def argEval (env : Env) (ruleLoc : Loc) (lineno : Int) (vals : Nat → SVal) :
    Arg → Val
  | .file => .str env.fname
  | .line => .int (ruleLoc.first_line + env.firstline)
  | .lineno => .int (lineno + env.firstline)
  | .noneV => .none
  | .trueV => .bool true
  | .falseV => .bool false
  | .obj i => getObj (vals i)
  | .chr i => .char (getChar (vals i))
  | .pair1 i => getPair1 (vals i)
  | .pair2 i => getPair2 (vals i)

/-- Run one rule's semantic action.  Returns the updated call log and
either the new `yyval` or `none` for `YYERROR`. -/
def applyAction (env : Env) (lineno : Int) (ruleLoc : Loc)
    (vals : Nat → SVal) (len : Nat) (calls : List BCall) :
    Action → List BCall × Option SVal
  | .defaultAct => (calls, some (if len = 0 then .obj .none else vals 1))
  | .setChar c => (calls, some (.char c))
  | .setNone => (calls, some (.obj .none))
  | .pass i => (calls, some (vals i))
  | .add i j => (calls, some (.obj (pyAdd (getObj (vals i)) (getObj (vals j)))))
  | .sub i j => (calls, some (.obj (pySub (getObj (vals i)) (getObj (vals j)))))
  | .mul i j => (calls, some (.obj (pyMul (getObj (vals i)) (getObj (vals j)))))
  | .div i j => (calls, some (.obj (pyDiv (getObj (vals i)) (getObj (vals j)))))
  | .neg i => (calls, some (.obj (pyNeg (getObj (vals i)))))
  | .call m args =>
      match buildy env lineno calls m (args.map (argEval env ruleLoc lineno vals)) with
      | (calls1, some v) => (calls1, some (.obj v))
      | (calls1, none) => (calls1, none)
  | .callPair m args snd =>
      match buildy env lineno calls m (args.map (argEval env ruleLoc lineno vals)) with
      | (calls1, some v) => (calls1, some (.pair v (argEval env ruleLoc lineno vals snd)))
      | (calls1, none) => (calls1, none)
  | .warnCall msg m args =>
      -- rule 74 first invokes build_grammar_error directly (its result is
      -- only DECREF'd), then performs the BUILDY handle_list call
      let calls1 := emit calls "build_grammar_error"
        [.str env.fname, .int (lineno + env.firstline), .str msg]
      match buildy env lineno calls1 m (args.map (argEval env ruleLoc lineno vals)) with
      | (calls2, some v) => (calls2, some (.obj v))
      | (calls2, none) => (calls2, none)

/-- Value of `$i` (for `i ∈ 1..len`) on the stack; `yyvsp[i - len]`. -/
def frameVal (stack : List Frame) (len i : Nat) : SVal :=
  ((stack.get? (len - i)).map Frame.v).getD (.obj .none)

/-- Location of `$i`. -/
def frameLoc (stack : List Frame) (len i : Nat) : Loc :=
  ((stack.get? (len - i)).map Frame.loc).getD loc0

/-- Location of the top-of-stack frame. -/
def headLoc (stack : List Frame) : Loc :=
  ((stack.head?).map Frame.loc).getD loc0

/-- State number of the top-of-stack frame. -/
def topState (stack : List Frame) : Nat :=
  ((stack.head?).map Frame.st).getD 0

/-- The macro `YYLLOC_DEFAULT` for a reduction of length `len`. -/
def ruleLocOf (stack : List Frame) (len : Nat) : Loc :=
  if len = 0 then
    let l := headLoc stack
    ⟨l.last_line, l.last_column, l.last_line, l.last_column⟩
  else
    let l1 := frameLoc stack len 1
    let ln := frameLoc stack len len
    ⟨l1.first_line, l1.first_column, ln.last_line, ln.last_column⟩

/-- Push a value/location/state triple (the `*++yyvsp = ...`,
`*++yylsp = ...`, `goto yynewstate` sequence) and perform the
`yysetstate` check `if (yystate == YYFINAL) YYACCEPT`. -/
def pushState (st : PState) (s : Nat) (v : SVal) (loc : Loc) :
    PState ⊕ ParseOut :=
  let st1 := { st with stack := ⟨s, v, loc⟩ :: st.stack, yystate := s,
                       mode := .backup }
  if s = 33 then .inr (finish 0 st1) else .inl st1

/-- Read a lookahead token if none is held (`yychar == YYEMPTY`); an empty
stream models `yylex` returning 0 (`YYEOF`). -/
def readToken (st : PState) : PState :=
  match st.yychar with
  | .empty =>
      match st.tokens with
      | [] => { st with yychar := .eof }
      | t :: rest =>
          { st with yychar := .tok t.code, yylval := t.val, yylloc := t.loc,
                    yylineno := t.lineno, tokens := rest }
  | _ => st

/-- Internal symbol number of the current lookahead. -/
def lookToken : Look → Nat
  | .empty => 0
  | .eof => 0
  | .tok c => yytranslate c

/-- The `yydefault` label: reduce by `yydefact[yystate]` or detect an
error when the default is 0. -/
def stepDefault (st : PState) : PState ⊕ ParseOut :=
  let r := defactAt st.yystate
  if r = 0 then .inl { st with mode := .errlab }
  else .inl { st with mode := .reduce r }

/-- The `yybackup` label: consult `yypact`, read a lookahead if needed,
and shift, reduce, or fall to the default action.  (The guard
`yytable_value_is_error` of grammar.c is the constant 0.) -/
def stepBackup (st : PState) : PState ⊕ ParseOut :=
  let yyn := pactAt st.yystate
  if yyn = -75 then stepDefault st
  else
    let st := readToken st
    let yytoken := lookToken st.yychar
    let m : Int := yyn + yytoken
    if m < 0 ∨ 196 < m ∨ checkAt m ≠ (yytoken : Int) then stepDefault st
    else
      let a := tableAt m
      if a ≤ 0 then .inl { st with mode := .reduce (-a).toNat }
      else
        -- shift the lookahead token
        let st := { st with yyerrstatus := st.yyerrstatus - 1, yychar := .empty }
        pushState st a.toNat st.yylval st.yylloc

/-- The `yyreduce` label for rule `r`: pop `yyr2[r]` symbols, run the
semantic action, and push the goto state — or, on `YYERROR` from a failed
builder call, route through `yyerrorlab` into `yyerrlab1`. -/
def stepReduce (env : Env) (st : PState) (r : Nat) : PState ⊕ ParseOut :=
  let len := r2At r
  let vals := fun i => frameVal st.stack len i
  let rl := ruleLocOf st.stack len
  match applyAction env st.yylineno rl vals len st.calls (ruleAction r) with
  | (calls, some yyval) =>
      let stack1 := st.stack.drop len
      let top := topState stack1
      let lhs := r1At r
      let g : Int := pgotoAt (lhs - 51) + top
      let ns : Nat :=
        if 0 ≤ g ∧ g ≤ 196 ∧ checkAt g = (top : Int) then (tableAt g).toNat
        else (defgotoAt (lhs - 51)).toNat
      pushState { st with stack := stack1, calls := calls } ns yyval rl
  | (calls, none) =>
      -- yyerrorlab: drop the rule's symbols, then common recovery
      let rng := if len = 0 then rl else frameLoc st.stack len 1
      let stack1 := st.stack.drop len
      .inl { st with stack := stack1, yystate := topState stack1,
                     calls := calls, errRange1 := rng, mode := .errlab1 }

/-- The expected-token enumeration of `yysyntax_error` for the verbose
error message. -/
def expectedFor (state : Nat) : List String :=
  let yyn := pactAt state
  if yyn = -75 then []
  else
    let lo : Nat := if yyn < 0 then (-yyn).toNat else 0
    let checklim : Int := 196 - yyn + 1
    let hi : Nat := if checklim < 51 then checklim.toNat else 51
    ((List.range hi).drop lo).filterMap fun (x : Nat) =>
      if x ≠ 1 ∧ checkAt (yyn + Int.ofNat x) = Int.ofNat x then
        some (yytnameTerminals.getD x "$undefined")
      else none

/-- The verbose message produced by `yysyntax_error` (capped at four
expected tokens, as in the C). -/
def errMsgFor (state : Nat) (yytoken : Option Nat) : String :=
  match yytoken with
  | none => "syntax error"
  | some t =>
      let exps := expectedFor state
      let exps := if 4 < exps.length then [] else exps
      "syntax error, unexpected " ++ yytnameTerminals.getD t "$undefined" ++
        match exps with
        | [] => ""
        | es => ", expecting " ++ String.intercalate " or " es

/-- Substring containment on character lists (structural, so that the
model reduces). -/
def containsSub (needle : List Char) : List Char → Bool
  | [] => needle.isEmpty
  | c :: t => needle.isPrefixOf (c :: t) || containsSub needle t

/-- The substring test `strstr(message, "LEX_ERROR") != NULL` of `yyerror`. -/
def mentionsLexError (msg : String) : Bool :=
  containsSub "LEX_ERROR".data msg.data

/-- The function `yyerror` of grammar.c: skip messages about `LEX_ERROR`
tokens (already registered by the lexer), otherwise register a syntax
error with the builder at `yylineno + yy_firstline`. -/
def yyerrorCall (env : Env) (lineno : Int) (calls : List BCall)
    (msg : String) : List BCall :=
  if mentionsLexError msg then calls
  else emit calls "build_grammar_error"
    [.str env.fname, .int (lineno + env.firstline), .str msg]

/-- The `yyerrlab` label: report the error unless already recovering, and
when `yyerrstatus == 3` discard the offending lookahead (aborting at end
of input). -/
def stepErrlab (env : Env) (st : PState) : PState ⊕ ParseOut :=
  let yytoken : Option Nat :=
    match st.yychar with
    | .empty => none
    | .eof => some 0
    | .tok c => some (yytranslate c)
  let st :=
    if st.yyerrstatus = 0 then
      { st with yynerrs := st.yynerrs + 1,
                calls := yyerrorCall env st.yylineno st.calls
                           (errMsgFor st.yystate yytoken) }
    else st
  let st := { st with errRange1 := st.yylloc }
  if st.yyerrstatus = 3 then
    match st.yychar with
    | .eof => .inr (finish 1 st)
    | .tok _ => .inl { st with yychar := .empty, mode := .errlab1 }
    | .empty => .inl { st with mode := .errlab1 }
  else .inl { st with mode := .errlab1 }

/-- The pop loop of `yyerrlab1`: find a state that can shift the `error`
token (symbol 1), popping as needed; `none` when the stack bottoms out
(`YYABORT`).  Returns the remaining stack, the shift target, and the final
`yyerror_range[1]`. -/
def recover (errR1 : Loc) : List Frame → Option (List Frame × Nat × Loc)
  | [] => none
  | f :: rest =>
      let yyn := pactAt f.st
      let found : Option Nat :=
        if yyn ≠ -75 then
          let m : Int := yyn + 1
          if 0 ≤ m ∧ m ≤ 196 ∧ checkAt m = 1 then
            let t := tableAt m
            if 0 < t then some t.toNat else none
          else none
        else none
      match found with
      | some t => some (f :: rest, t, errR1)
      | none =>
          match rest with
          | [] => none
          | _ => recover f.loc rest

/-- The `yyerrlab1` label: set `yyerrstatus = 3`, pop to an error-shifting
state and shift the `error` token with `yylval` and the
`YYLLOC_DEFAULT`-combined error location, or `YYABORT`. -/
def stepErrlab1 (st : PState) : PState ⊕ ParseOut :=
  let st := { st with yyerrstatus := 3 }
  match recover st.errRange1 st.stack with
  | none => .inr (finish 1 st)
  | some (stack1, t, r1) =>
      let errloc : Loc :=
        ⟨r1.first_line, r1.first_column, st.yylloc.last_line, st.yylloc.last_column⟩
      pushState { st with stack := stack1, errRange1 := r1 } t st.yylval errloc

/-- One transition of the driver. -/
def step (env : Env) (st : PState) : PState ⊕ ParseOut :=
  match st.mode with
  | .backup => stepBackup st
  | .reduce r => stepReduce env st r
  | .errlab => stepErrlab env st
  | .errlab1 => stepErrlab1 st

/-- Fuel-bounded iteration of `step`. -/
def run (env : Env) : Nat → PState → ParseOut
  | 0, st => finish 99 st
  | Nat.succ n, st =>
      match step env st with
      | .inl st1 => run env n st1
      | .inr out => out

/-- The initial `yyparse` state: state 0 pushed, `yylsp[0] = yylloc`,
no lookahead, `yyerrstatus = yynerrs = 0`. -/
def initState (tokens : List Token) : PState :=
  { mode := .backup, stack := [⟨0, .obj .none, loc0⟩], yystate := 0,
    tokens := tokens, yychar := .empty, yylval := .obj .none, yylloc := loc0,
    yylineno := 1, yyerrstatus := 0, yynerrs := 0, errRange1 := loc0,
    calls := [] }

/-- Top-level model of `yyparse` on a given token stream. -/
def yyparseRun (fname : String) (firstline : Int) (b : Builder)
    (tokens : List Token) : ParseOut :=
  run ⟨fname, firstline, b⟩ 100000 (initState tokens)

/-! ### Builders

The reference Builder implementation is Python code of this repository
that is not under src/; only its wire contract is specified.  The list
builder is therefore modelled from the spec; every other method simply
constructs a node recording its name and arguments, which is all the
grammar engine can observe. -/

/-- Modelled from the spec: `handle_list(existing_list?, new_item) → list`
— the generic sequence builder of the Builder interface (§4.4); the
concrete Python implementation is missing from src/.  An absent
(`None`) existing list denotes the empty list. -/
def handleList : List Val → Except (Val × Val) Val
  | [.none, item] => .ok (.list [item])
  | [.list xs, item] => .ok (.list (xs ++ [item]))
  | args => .ok (.node "handle_list" args)

/-- The reference builder: `handle_list` per the spec, every other method
a pure node constructor.  It never raises. -/
def builderRef : Builder := fun m args =>
  if m = "handle_list" then handleList args else .ok (.node m args)

/-- A builder raising a `ValueError` from one designated method, used to
exercise the Builder-failure channel. -/
def builderFailOn (bad : String) : Builder := fun m args =>
  if m = bad then .error (.str "ValueError", .str "builder failure")
  else builderRef m args

/-! ### Token constructors (external token codes of the grammar.c enum) -/

/-- Token with an object payload. -/
def tok (code : Nat) (v : Val) (line : Int) : Token :=
  { code := code, val := .obj v, loc := ⟨line, 1, line, 2⟩, lineno := line }

/-- Token with a character payload (FLAG tokens). -/
def tokc (code : Nat) (c : Char) (line : Int) : Token :=
  { code := code, val := .char c, loc := ⟨line, 1, line, 2⟩, lineno := line }

/-- Valueless token (punctuation, keywords, EOL); `yylval` for these is
not set by the lexer and is modelled as `None`. -/
def tokk (code : Nat) (line : Int) : Token := tok code .none line

/-! External token codes from `enum yytokentype` compiled into grammar.c
(lines 197-248). -/

def cINDENT : Nat := 259
def cEOL : Nat := 260
def cCOMMA : Nat := 271
def cTILDE : Nat := 272
def cASTERISK : Nat := 274
def cSLASH : Nat := 275
def cPLUS : Nat := 276
def cMINUS : Nat := 277
def cLPAREN : Nat := 278
def cRPAREN : Nat := 279
def cLCURLCURL : Nat := 266
def cRCURLCURL : Nat := 267
def cLCURL : Nat := 268
def cRCURL : Nat := 269
def cFLAG : Nat := 280
def cTXN : Nat := 281
def cBALANCE : Nat := 282
def cOPEN : Nat := 283
def cCLOSE : Nat := 284
def cPUSHTAG : Nat := 291
def cPOPTAG : Nat := 292
def cOPTION : Nat := 293
def cDATE : Nat := 297
def cACCOUNT : Nat := 298
def cCURRENCY : Nat := 299
def cSTRING : Nat := 300
def cNUMBER : Nat := 301
def cTAG : Nat := 302
def cPRICE : Nat := 288

/-! ### Observations on the call log -/

/-- Argument lists of all invocations of method `m`, in order. -/
def callsNamed (out : ParseOut) (m : String) : List (List Val) :=
  out.calls.filterMap fun c => if c.1 = m then some c.2 else none

/-- All recorded `build_grammar_error` invocations. -/
def grammarErrors (out : ParseOut) : List (List Val) :=
  callsNamed out "build_grammar_error"

/-- The line arguments (second argument) of the recorded errors. -/
def errorLineVals (out : ParseOut) : List Val :=
  (grammarErrors out).map fun args => args.getD 1 .none

/-- Argument of the final `store_result` call(s): the directive list
handed to the result container. -/
def storeResults (out : ParseOut) : List (List Val) :=
  callsNamed out "store_result"

/-- Method names of all recorded calls. -/
def callNames (out : ParseOut) : List String := out.calls.map Prod.fst

/-! ### The number_expr sub-grammar as a syntax tree

The productions of the `number_expr` nonterminal (rules 13-20 of
grammar.c) are a self-contained recursive definition; `NumExpr` is that
definition as a tree, and `evalNumExpr` is the corresponding composition
of the semantic actions (`PyNumber_Add` etc. as modelled above). -/

/-- Parse trees of the `number_expr` nonterminal: rules 13 (NUMBER),
14 (`+`), 15 (`-`), 16 (`*`), 17 (`/`), 18 (unary minus), 19 (unary
plus), 20 (parentheses). -/
inductive NumExpr where
  | lit (q : Frac)
  | add (a b : NumExpr)
  | sub (a b : NumExpr)
  | mul (a b : NumExpr)
  | div (a b : NumExpr)
  | neg (a : NumExpr)
  | pos (a : NumExpr)
  | paren (a : NumExpr)

/-- Evaluation performed by the semantic actions of rules 13-20: each
reduction combines the already-evaluated children; rule 19 and rule 20
return the inner value unchanged. -/
def evalNumExpr : NumExpr → Frac
  | .lit q => q
  | .add a b => (evalNumExpr a).add (evalNumExpr b)
  | .sub a b => (evalNumExpr a).sub (evalNumExpr b)
  | .mul a b => (evalNumExpr a).mul (evalNumExpr b)
  | .div a b => (evalNumExpr a).div (evalNumExpr b)
  | .neg a => (evalNumExpr a).neg
  | .pos a => evalNumExpr a
  | .paren a => evalNumExpr a

/-! ### The token enumerations of grammar.h and grammar.c

The header grammar.h (lines 44-87) declares `enum yytokentype` as exported
to the lexer; grammar.c (lines 194-248) compiles its own copy of the enum
(the section that, per the Bison comment, stands in for `#include
"grammar.h"`).  Both are transcribed as name/code association lists. -/

/-- The `enum yytokentype` of grammar.h, lines 48-85. -/
def yytokentypeH : List (String × Nat) := [
  ("ERROR", 258), ("INDENT", 259), ("EOL", 260), ("COMMENT", 261),
  ("SKIPPED", 262), ("PIPE", 263), ("ATAT", 264), ("AT", 265),
  ("LCURLCURL", 266), ("RCURLCURL", 267), ("LCURL", 268), ("RCURL", 269),
  ("EQUAL", 270), ("COMMA", 271), ("SLASH", 272), ("PLUS", 273),
  ("FLAG", 274), ("TXN", 275), ("BALANCE", 276), ("OPEN", 277),
  ("CLOSE", 278), ("PAD", 279), ("EVENT", 280), ("PRICE", 281),
  ("NOTE", 282), ("DOCUMENT", 283), ("PUSHTAG", 284), ("POPTAG", 285),
  ("OPTION", 286), ("PLUGIN", 287), ("DATE", 288), ("ACCOUNT", 289),
  ("CURRENCY", 290), ("STRING", 291), ("NUMBER", 292), ("TAG", 293),
  ("LINK", 294), ("KEY", 295)]

/-- The `enum yytokentype` compiled into grammar.c, lines 197-247. -/
def yytokentypeC : List (String × Nat) := [
  ("LEX_ERROR", 258), ("INDENT", 259), ("EOL", 260), ("COMMENT", 261),
  ("SKIPPED", 262), ("PIPE", 263), ("ATAT", 264), ("AT", 265),
  ("LCURLCURL", 266), ("RCURLCURL", 267), ("LCURL", 268), ("RCURL", 269),
  ("EQUAL", 270), ("COMMA", 271), ("TILDE", 272), ("HASH", 273),
  ("ASTERISK", 274), ("SLASH", 275), ("PLUS", 276), ("MINUS", 277),
  ("LPAREN", 278), ("RPAREN", 279), ("FLAG", 280), ("TXN", 281),
  ("BALANCE", 282), ("OPEN", 283), ("CLOSE", 284), ("COMMODITY", 285),
  ("PAD", 286), ("EVENT", 287), ("PRICE", 288), ("NOTE", 289),
  ("DOCUMENT", 290), ("PUSHTAG", 291), ("POPTAG", 292), ("OPTION", 293),
  ("INCLUDE", 294), ("PLUGIN", 295), ("BOOL", 296), ("DATE", 297),
  ("ACCOUNT", 298), ("CURRENCY", 299), ("STRING", 300), ("NUMBER", 301),
  ("TAG", 302), ("LINK", 303), ("KEY", 304), ("NEGATIVE", 305)]

/-! ### Concrete token streams used by the theorems -/

/-- File name installed in `yy_filename` for the sample parses. -/
def fileN : String := "ledger.beancount"

/-- Parse with the reference builder and `yy_firstline = 0`. -/
def parseRef (ts : List Token) : ParseOut := yyparseRun fileN 0 builderRef ts

/-- Amount-call argument lists of a parse. -/
def amountsOf (ts : List Token) : List (List Val) :=
  callsNamed (parseRef ts) "amount"

/-- Token stream of a price directive `2014-01-01 price USD <expr> CAD`. -/
def priceToks (expr : List Token) : List Token :=
  [tok cDATE (.date "2014-01-01") 1, tokk cPRICE 1,
   tok cCURRENCY (.currency "USD") 1] ++ expr ++
  [tok cCURRENCY (.currency "CAD") 1, tokk cEOL 1]

/-- Tokens of `1.5 + 2 * 3`. -/
def exprMulAdd : List Token :=
  [tok cNUMBER (.num ⟨3, 2⟩) 1, tokk cPLUS 1, tok cNUMBER (.num ⟨2, 1⟩) 1,
   tokk cASTERISK 1, tok cNUMBER (.num ⟨3, 1⟩) 1]

/-- Tokens of `(1.5 + 2) * 3`. -/
def exprParenMul : List Token :=
  [tokk cLPAREN 1, tok cNUMBER (.num ⟨3, 2⟩) 1, tokk cPLUS 1,
   tok cNUMBER (.num ⟨2, 1⟩) 1, tokk cRPAREN 1, tokk cASTERISK 1,
   tok cNUMBER (.num ⟨3, 1⟩) 1]

/-- Tokens of `-1 - -2`. -/
def exprNegSub : List Token :=
  [tokk cMINUS 1, tok cNUMBER (.num ⟨1, 1⟩) 1, tokk cMINUS 1, tokk cMINUS 1,
   tok cNUMBER (.num ⟨2, 1⟩) 1]

/-- Tokens of `1 - 2 - 3` (left associativity of binary minus). -/
def exprSubSub : List Token :=
  [tok cNUMBER (.num ⟨1, 1⟩) 1, tokk cMINUS 1, tok cNUMBER (.num ⟨2, 1⟩) 1,
   tokk cMINUS 1, tok cNUMBER (.num ⟨3, 1⟩) 1]

/-- Tokens of `- 2 + 3` (unary minus binds tighter than binary plus). -/
def exprNegAdd : List Token :=
  [tokk cMINUS 1, tok cNUMBER (.num ⟨2, 1⟩) 1, tokk cPLUS 1,
   tok cNUMBER (.num ⟨3, 1⟩) 1]

/-- Tokens of `8 / 2 / 2` (left associativity of division). -/
def exprDivDiv : List Token :=
  [tok cNUMBER (.num ⟨8, 1⟩) 1, tokk cSLASH 1, tok cNUMBER (.num ⟨2, 1⟩) 1,
   tokk cSLASH 1, tok cNUMBER (.num ⟨2, 1⟩) 1]

/-- Scenario D of the spec: a well-formed open directive, a malformed
line (the grammar engine sees `DATE STRING STRING EOL` on line 2), and a
second well-formed open directive. -/
def scenarioD : List Token :=
  [tok cDATE (.date "2014-01-01") 1, tokk cOPEN 1,
     tok cACCOUNT (.account "Assets:Foo") 1, tok cCURRENCY (.currency "USD") 1,
     tokk cEOL 1,
   tok cDATE (.date "2014-01-02") 2, tok cSTRING (.str "wibble") 2,
     tok cSTRING (.str "bad") 2, tokk cEOL 2,
   tok cDATE (.date "2014-01-03") 3, tokk cOPEN 3,
     tok cACCOUNT (.account "Assets:Bar") 3, tok cCURRENCY (.currency "USD") 3,
     tokk cEOL 3]

/-- The Open directive node reduced from line 1 of Scenario D. -/
def openFooNode : Val :=
  .node "open" [.str fileN, .int 1, .date "2014-01-01", .account "Assets:Foo",
                .list [.currency "USD"], .none, .none]

/-- The Open directive node reduced from line 3 of Scenario D. -/
def openBarNode : Val :=
  .node "open" [.str fileN, .int 3, .date "2014-01-03", .account "Assets:Bar",
                .list [.currency "USD"], .none, .none]

/-- A transaction whose single posting carries the given tokens after the
account (`2014-05-05 txn "Buy" / INDENT Assets:Brok <post> EOL`). -/
def txnWithPosting (post : List Token) : List Token :=
  [tok cDATE (.date "2014-05-05") 1, tokk cTXN 1, tok cSTRING (.str "Buy") 1,
   tokk cEOL 1, tokk cINDENT 2, tok cACCOUNT (.account "Assets:Brok") 2] ++
  post ++ [tokk cEOL 2]

/-- Posting tokens `10 HOOL {500.00 USD, 2014-04-01, "lot-A"}`. -/
def postPerUnitLot : List Token :=
  [tok cNUMBER (.num ⟨10, 1⟩) 2, tok cCURRENCY (.currency "HOOL") 2,
   tokk cLCURL 2, tok cNUMBER (.num ⟨500, 1⟩) 2,
   tok cCURRENCY (.currency "USD") 2, tokk cCOMMA 2,
   tok cDATE (.date "2014-04-01") 2, tokk cCOMMA 2,
   tok cSTRING (.str "lot-A") 2, tokk cRCURL 2]

/-- Posting tokens `10 HOOL {"lot-A" / 2014-04-01}` (slash separator). -/
def postSlashLot : List Token :=
  [tok cNUMBER (.num ⟨10, 1⟩) 2, tok cCURRENCY (.currency "HOOL") 2,
   tokk cLCURL 2, tok cSTRING (.str "lot-A") 2, tokk cSLASH 2,
   tok cDATE (.date "2014-04-01") 2, tokk cRCURL 2]

/-- Posting tokens `10 HOOL {{500.00 USD}}` (the total-cost form of the
claims, written with LCURLCURL/RCURLCURL). -/
def postTotalLot : List Token :=
  [tok cNUMBER (.num ⟨10, 1⟩) 2, tok cCURRENCY (.currency "HOOL") 2,
   tokk cLCURLCURL 2, tok cNUMBER (.num ⟨500, 1⟩) 2,
   tok cCURRENCY (.currency "USD") 2, tokk cRCURLCURL 2]

/-- Posting tokens `10 HOOL {*}` (the ASTERISK merge marker of the claims). -/
def postMergeLot : List Token :=
  [tok cNUMBER (.num ⟨10, 1⟩) 2, tok cCURRENCY (.currency "HOOL") 2,
   tokk cLCURL 2, tokk cASTERISK 2, tokk cRCURL 2]

/-- Transaction `2014-03-01 <flagtok> "Hi"` with one bare posting
`Expenses:Rest` (no amount, no posting flag). -/
def txnBare (flagtok : Token) : List Token :=
  [tok cDATE (.date "2014-03-01") 1, flagtok, tok cSTRING (.str "Hi") 1,
   tokk cEOL 1, tokk cINDENT 2, tok cACCOUNT (.account "Expenses:Rest") 2,
   tokk cEOL 2]

/-- The txn_fields value of `txnBare`. -/
def fieldsHi : Val := .node "txn_field_STRING" [.node "txn_field_new" [.none], .str "Hi"]

/-- The bare posting node of `txnBare`: NUL flag, no units. -/
def postingBare : Val :=
  .node "posting" [.str fileN, .int 2, .account "Expenses:Rest", .none, .none,
                   .bool false, .char '\x00']

/-- Tokens `pushtag #trip`. -/
def pushtagToks : List Token :=
  [tokk cPUSHTAG 1, tok cTAG (.tag "trip") 1, tokk cEOL 1]

/-- Does an argument list start with a string (file) and an integer
(line)?  This is the shape produced by the `FILE_LINE_ARGS` prefix. -/
def hasFileLinePrefix : List Val → Bool
  | .str _ :: .int _ :: _ => true
  | _ => false

/-! ### Claim theorems -/

/-- C3: in the number-expression evaluator, `*`/`/` bind tighter than
`+`/`-`, unary minus tighter still, parentheses tightest, all binary
operators left-associative: parsing `1.5 + 2 * 3` in an amount yields the
Decimal 7.5, `(1.5 + 2) * 3` yields 10.5, and `-1 - -2` yields 1 (with
`1 - 2 - 3 → -4`, `- 2 + 3 → 1` and `8 / 2 / 2 → 2` witnessing
left associativity and the unary-minus precedence), all computed by the
compiled LALR tables of grammar.c. -/
theorem number_expr_precedence_examples :
    amountsOf (priceToks exprMulAdd) = [[.num ⟨15, 2⟩, .currency "CAD"]] ∧
    Frac.toRat ⟨15, 2⟩ = 15 / 2 ∧
    amountsOf (priceToks exprParenMul) = [[.num ⟨21, 2⟩, .currency "CAD"]] ∧
    Frac.toRat ⟨21, 2⟩ = 21 / 2 ∧
    amountsOf (priceToks exprNegSub) = [[.num ⟨1, 1⟩, .currency "CAD"]] ∧
    Frac.toRat ⟨1, 1⟩ = 1 ∧
    amountsOf (priceToks exprSubSub) = [[.num ⟨-4, 1⟩, .currency "CAD"]] ∧
    amountsOf (priceToks exprNegAdd) = [[.num ⟨1, 1⟩, .currency "CAD"]] ∧
    amountsOf (priceToks exprDivDiv) = [[.num ⟨8, 4⟩, .currency "CAD"]] ∧
    Frac.toRat ⟨8, 4⟩ = 2 := by
  refine ⟨rfl, ?_, rfl, ?_, rfl, ?_, rfl, rfl, rfl, ?_⟩ <;> norm_num [Frac.toRat]

/-- C6: in Scenario D (an open directive, the malformed line
`2014-01-02 wibble bad`, another open directive), the parse result
contains both well-formed Open directives and exactly one grammar error
reported at the malformed line 2; the unexpected token only discards
input through the end of that line and the following directive still
reduces. -/
theorem error_recovery_scenario_d :
    (parseRef scenarioD).result = 0 ∧
    storeResults (parseRef scenarioD) = [[.list [openFooNode, openBarNode]]] ∧
    grammarErrors (parseRef scenarioD) =
      [[.str fileN, .int 2, .str "syntax error, unexpected STRING"]] :=
  ⟨rfl, rfl, rfl⟩

/-- C7: a slash separator between two lot components is accepted — the
component list is still built via handle_list, the cost spec reduces via
lot_spec, and the enclosing transaction is produced — while a non-fatal
error whose message carries the word "deprecated" is recorded via
build_grammar_error at the offending file and line; the parse continues
to completion. -/
theorem slash_separator_deprecated_warning :
    grammarErrors (parseRef (txnWithPosting postSlashLot)) =
      [[.str fileN, .int 2,
        .str "Usage of slash as cost separate is deprecated (/)"]] ∧
    (∃ pre post, "Usage of slash as cost separate is deprecated (/)" =
        pre ++ "deprecated" ++ post) ∧
    (callsNamed (parseRef (txnWithPosting postSlashLot)) "handle_list").length
      = 4 ∧
    callsNamed (parseRef (txnWithPosting postSlashLot)) "lot_spec" =
      [[.list [.str "lot-A", .date "2014-04-01"]]] ∧
    (parseRef (txnWithPosting postSlashLot)).result = 0 ∧
    (callsNamed (parseRef (txnWithPosting postSlashLot)) "transaction").length
      = 1 :=
  ⟨rfl, ⟨"Usage of slash as cost separate is ", " (/)", rfl⟩, rfl, rfl, rfl,
   rfl⟩

/-- C10: the txn nonterminal reduced from the TXN keyword (rule 3) or from
ASTERISK (rule 5) yields the flag character `*`, and a posting without an
optional flag hands the posting builder the NUL character `'\0'` (rule 27)
rather than an absent value; shown both at the rule-action table and on
complete parses. -/
theorem txn_flag_and_optflag_defaults :
    ruleAction 3 = Action.setChar '*' ∧
    ruleAction 5 = Action.setChar '*' ∧
    ruleAction 27 = Action.setChar '\x00' ∧
    callsNamed (parseRef (txnBare (tokk cTXN 1))) "transaction" =
      [[.str fileN, .int 1, .date "2014-03-01", .char '*', fieldsHi,
        .list [postingBare]]] ∧
    callsNamed (parseRef (txnBare (tokk cASTERISK 1))) "transaction" =
      [[.str fileN, .int 1, .date "2014-03-01", .char '*', fieldsHi,
        .list [postingBare]]] ∧
    callsNamed (parseRef (txnBare (tokk cTXN 1))) "posting" =
      [[.str fileN, .int 2, .account "Expenses:Rest", .none, .none,
        .bool false, .char '\x00']] :=
  ⟨rfl, rfl, rfl, rfl, rfl, rfl⟩

/-- C9: the `enum yytokentype` exported by grammar.h disagrees with the one
compiled into grammar.c — the header is stale: the two enumerations agree
only on the codes 259..271 (INDENT through COMMA); `SLASH` is 272 in the
header but 275 in grammar.c; the header lacks `TILDE`, `HASH`,
`ASTERISK`, `MINUS`, `LPAREN`, `RPAREN`, `COMMODITY`, `INCLUDE`, `BOOL`,
`NEGATIVE` and `LEX_ERROR` (it has `ERROR` instead), and the two name
sets differ (38 versus 48 token kinds). -/
theorem token_enum_header_mismatch :
    yytokentypeH.lookup "SLASH" = some 272 ∧
    yytokentypeC.lookup "SLASH" = some 275 ∧
    yytokentypeH.lookup "PLUS" = some 273 ∧
    yytokentypeC.lookup "PLUS" = some 276 ∧
    yytokentypeH.lookup "DATE" = some 288 ∧
    yytokentypeC.lookup "DATE" = some 297 ∧
    yytokentypeH.lookup "ASTERISK" = none ∧
    yytokentypeC.lookup "ASTERISK" = some 274 ∧
    yytokentypeH.lookup "LEX_ERROR" = none ∧
    yytokentypeC.lookup "LEX_ERROR" = some 258 ∧
    yytokentypeH.lookup "ERROR" = some 258 ∧
    yytokentypeC.lookup "ERROR" = none ∧
    yytokentypeH.length = 38 ∧
    yytokentypeC.length = 48 ∧
    yytokentypeH.map Prod.fst ≠ yytokentypeC.map Prod.fst := by
  refine ⟨rfl, rfl, rfl, rfl, rfl, rfl, rfl, rfl, rfl, rfl, rfl, rfl, rfl,
    rfl, ?_⟩
  decide

/-! ### Which methods receive the (file, line) prefix -/

/-- The builder method invoked by an action, if any. -/
def methodOf : Action → Option String
  | .call m _ => some m
  | .callPair m _ _ => some m
  | .warnCall _ m _ => some m
  | _ => none

/-- The construction methods whose `BUILDY` calls carry `FILE_LINE_ARGS`
(format prefix `si`). -/
def fileLineMethods : List String :=
  ["transaction", "posting", "open", "close", "commodity", "pad", "balance",
   "price", "event", "note", "document", "option", "include", "plugin",
   "position"]

/-- The construction methods whose `BUILDY` calls carry no location
arguments (format `O...` only). -/
def bareMethods : List String :=
  ["key_value", "amount", "compound_amount", "handle_list", "lot_spec",
   "pushtag", "poptag", "txn_field_new", "txn_field_STRING",
   "txn_field_LINK", "txn_field_TAG", "txn_field_PIPE", "store_result"]

/-- Does the action's builder call pass file and line as its two leading
arguments? -/
def argsLeadFileLine : Action → Bool
  | .call _ (Arg.file :: Arg.line :: _) => true
  | .callPair _ (Arg.file :: Arg.line :: _) _ => true
  | .warnCall _ _ (Arg.file :: Arg.line :: _) => true
  | _ => false

/-- Check of one rule action: its method is classified, and it leads with
(file, line) exactly when it is a directive-level constructor. -/
def fileLineDiscipline (a : Action) : Bool :=
  match methodOf a with
  | some m =>
      (decide (m ∈ fileLineMethods) || decide (m ∈ bareMethods)) &&
      (if m ∈ fileLineMethods then argsLeadFileLine a else !argsLeadFileLine a)
  | none => true

/-- C2 counterexample: the pushtag reduction invokes the Builder's
`pushtag` with only the tag as argument — no leading file name and line
number — so not every Builder construction call receives `(file, line)`
leading arguments. -/
theorem pushtag_call_lacks_file_line :
    callsNamed (parseRef pushtagToks) "pushtag" = [[.tag "trip"]] ∧
    hasFileLinePrefix [.tag "trip"] = false ∧
    (callsNamed (parseRef pushtagToks) "pushtag").all hasFileLinePrefix
      = false :=
  ⟨rfl, rfl, rfl⟩

/-- C2 amended: the directive-level constructors (transaction, posting,
open, close, commodity, pad, balance, price, event, note, document,
option, include, plugin, position) receive the file name and line number
as explicit leading arguments, while key_value, amount, compound_amount,
handle_list, lot_spec, pushtag, poptag, the txn_field accumulators and
store_result are invoked without location arguments — uniformly across
every rule action of the grammar. -/
theorem builder_call_file_line_discipline :
    ruleActions.all (fun p => fileLineDiscipline p.2) = true := by decide

/-- C4 counterexample: the total-cost form `LCURLCURL lot_comp_list
RCURLCURL` and the ASTERISK merge marker are not part of this grammar —
on `10 HOOL {{500.00 USD}}` the engine reduces no lot_spec and records a
syntax error at the LCURLCURL token (abandoning the transaction), and on
`10 HOOL {*}` it records a syntax error at the ASTERISK token whose
expected set (RCURL, COMMA, SLASH) shows the merge marker cannot follow. -/
theorem lot_spec_rejects_total_and_merge :
    callsNamed (parseRef (txnWithPosting postTotalLot)) "lot_spec" = [] ∧
    grammarErrors (parseRef (txnWithPosting postTotalLot)) =
      [[.str fileN, .int 2,
        .str "syntax error, unexpected LCURLCURL, expecting EOL or COMMENT or ATAT or AT"]] ∧
    storeResults (parseRef (txnWithPosting postTotalLot)) = [[.none]] ∧
    callsNamed (parseRef (txnWithPosting postMergeLot)) "lot_spec" = [] ∧
    grammarErrors (parseRef (txnWithPosting postMergeLot)) =
      [[.str fileN, .int 2,
        .str "syntax error, unexpected ASTERISK, expecting RCURL or COMMA or SLASH"]] :=
  ⟨rfl, rfl, rfl, rfl, rfl⟩

/-- The compound amount `500.00 USD` as reduced by rule 66. -/
def compound500 : Val :=
  .node "compound_amount" [.num ⟨500, 1⟩, .none, .currency "USD"]

/-- The lot component list of `{500.00 USD, 2014-04-01, "lot-A"}`. -/
def lotListPerUnit : Val := .list [compound500, .date "2014-04-01", .str "lot-A"]

/-- The units amount `10 HOOL`. -/
def amount10HOOL : Val := .node "amount" [.num ⟨10, 1⟩, .currency "HOOL"]

/-- C4 amended: a cost specification is written only as `LCURL
lot_comp_list RCURL`; each lot component is a compound amount (reduced via
the Builder's compound_amount with per-number, optional total-number and
currency), a date, or a string label; there is no `LCURLCURL` total form
and no ASTERISK merge marker, and the reduction passes the component list
to the Builder's `lot_spec` method (the CostSpec record itself is
constructed outside this grammar). -/
theorem lot_spec_per_unit_only :
    callsNamed (parseRef (txnWithPosting postPerUnitLot)) "lot_spec" =
      [[lotListPerUnit]] ∧
    callsNamed (parseRef (txnWithPosting postPerUnitLot)) "compound_amount" =
      [[.num ⟨500, 1⟩, .none, .currency "USD"]] ∧
    callsNamed (parseRef (txnWithPosting postPerUnitLot)) "position" =
      [[.str fileN, .int 2, amount10HOOL, .node "lot_spec" [lotListPerUnit]]] ∧
    grammarErrors (parseRef (txnWithPosting postPerUnitLot)) = [] ∧
    (parseRef (txnWithPosting postPerUnitLot)).result = 0 :=
  ⟨rfl, rfl, rfl, rfl, rfl⟩

/-- Tokens of the bare number `1.5`. -/
def exprX : List Token := [tok cNUMBER (.num ⟨3, 2⟩) 1]

/-- Tokens of `(1.5)`. -/
def exprParenX : List Token :=
  [tokk cLPAREN 1] ++ exprX ++ [tokk cRPAREN 1]

/-- Tokens of `- -1.5`. -/
def exprNegNegX : List Token := [tokk cMINUS 1, tokk cMINUS 1] ++ exprX

/-- C8: for every number expression, a parenthesized reduction returns
the inner value unchanged and double unary negation is the identity on
the evaluated value, so `parse X = parse (X) = parse - -X`; stated over
all `number_expr` parse trees and exhibited end-to-end through the LALR
tables on `X = 1.5`. -/
theorem number_expr_paren_neg_identities :
    (∀ e : NumExpr, evalNumExpr (.paren e) = evalNumExpr e) ∧
    (∀ e : NumExpr, evalNumExpr (.neg (.neg e)) = evalNumExpr e) ∧
    amountsOf (priceToks exprX) = [[.num ⟨3, 2⟩, .currency "CAD"]] ∧
    amountsOf (priceToks exprParenX) = [[.num ⟨3, 2⟩, .currency "CAD"]] ∧
    amountsOf (priceToks exprNegNegX) = [[.num ⟨3, 2⟩, .currency "CAD"]] := by
  refine ⟨fun e => rfl, fun e => ?_, rfl, rfl, rfl⟩
  show Frac.neg (Frac.neg (evalNumExpr e)) = evalNumExpr e
  simp [Frac.neg]

/-! ### Builder failures -/

/-- Tokens of `2014-01-01 open Assets:Foo USD` followed by
`2014-01-02 close Assets:Bar`. -/
def openCloseToks : List Token :=
  [tok cDATE (.date "2014-01-01") 1, tokk cOPEN 1,
     tok cACCOUNT (.account "Assets:Foo") 1, tok cCURRENCY (.currency "USD") 1,
     tokk cEOL 1,
   tok cDATE (.date "2014-01-02") 2, tokk cCLOSE 2,
     tok cACCOUNT (.account "Assets:Bar") 2, tokk cEOL 2]

/-- Parse of `openCloseToks` with a builder whose `open` method raises. -/
def parseFailOpen : ParseOut :=
  yyparseRun fileN 0 (builderFailOn "open") openCloseToks

/-- The Close directive node of `openCloseToks`. -/
def closeBarNode : Val :=
  .node "close" [.str fileN, .int 2, .date "2014-01-02", .account "Assets:Bar",
                 .none]

/-- C1 counterexample: a Builder failure can abort the parser.  When the
Builder's `store_result` method fails (the final reduction `file →
declarations`), the engine records the error and signals `YYERROR`, but no
state below can shift the error token, so the recovery loop bottoms out
and `yyparse` returns 1 (`YYABORT`) — refuting "a Builder failure never
unwinds or aborts the parser". -/
theorem store_result_failure_aborts :
    (yyparseRun fileN 0 (builderFailOn "store_result") []).result = 1 ∧
    grammarErrors (yyparseRun fileN 0 (builderFailOn "store_result") []) =
      [[.str fileN, .int 1, .str "builder failure", .str "ValueError"]] :=
  ⟨rfl, rfl⟩

/-- C1 amended: whenever a reduction's `BUILDY` call finds the Builder
failed, the engine records the error via the Builder's
build_grammar_error — passing the file name, the current lexer line
(`yylineno + yy_firstline`) and the failure's value and type — and
abandons that reduction through `YYERROR`; when a state on the stack can
still shift the error token (every reduction below the top-level
store_result), the parse then continues and later directives are still
produced, as exhibited by a failing `open` followed by a successful
`close`; only a failure of the final store_result reduction aborts the
parser (see the counterexample). -/
theorem builder_failure_error_path :
    (∀ (env : Env) (lineno : Int) (calls : List BCall) (m : String)
        (args : List Val) (e : Val × Val),
        env.builder m args = Except.error e →
        buildy env lineno calls m args =
          (calls ++ [(m, args),
            ("build_grammar_error",
             [.str env.fname, .int (lineno + env.firstline), e.2, e.1])],
           none)) ∧
    parseFailOpen.result = 0 ∧
    (callsNamed parseFailOpen "open").length = 1 ∧
    grammarErrors parseFailOpen =
      [[.str fileN, .int 2, .str "builder failure", .str "ValueError"]] ∧
    storeResults parseFailOpen = [[.list [closeBarNode]]] := by
  refine ⟨?_, rfl, rfl, rfl, rfl⟩
  intro env lineno calls m args e h
  simp [buildy, emit, h]

/-- C1 witness: the failure branch of `buildy` at a concrete builder,
method and line. -/
theorem builder_failure_error_path_witness :
    buildy ⟨"f", 0, builderFailOn "open"⟩ 7 [] "open" [.none] =
      ([("open", [.none]),
        ("build_grammar_error",
         [.str "f", .int 7, .str "builder failure", .str "ValueError"])],
       none) :=
  builder_failure_error_path.1 ⟨"f", 0, builderFailOn "open"⟩ 7 [] "open"
    [.none] (.str "ValueError", .str "builder failure") rfl

/-! ### The closed set of builder methods the engine can invoke

Every builder invocation of the model goes through `emit`, either from a
rule action (whose method name is listed in `ruleActions`) or as the fixed
`build_grammar_error` of `yyerror`, `build_grammar_error_from_exception`
and the rule-74 deprecation warning.  The lemmas below prove that the
call log of any run, on any builder and token stream, only ever contains
these method names. -/

/-- All builder method names the engine can invoke: `build_grammar_error`
plus the method of every rule action. -/
def engineMethods : List String :=
  "build_grammar_error" :: ruleActions.filterMap fun p => methodOf p.2

/-- Every call of a log names an engine method. -/
def CallsOK (l : List BCall) : Prop := ∀ c ∈ l, c.1 ∈ engineMethods

lemma callsOK_emit {calls m args} (hc : CallsOK calls)
    (hm : m ∈ engineMethods) : CallsOK (emit calls m args) := by
  intro c hcmem
  rcases List.mem_append.1 hcmem with h | h
  · exact hc c h
  · rcases List.mem_singleton.1 h with rfl
    exact hm

lemma bge_mem_engineMethods : "build_grammar_error" ∈ engineMethods :=
  List.mem_cons_self _ _

lemma lookup_mem_snd {α β : Type} [BEq α] {l : List (α × β)} {k : α} {b : β}
    (h : l.lookup k = some b) : b ∈ l.map Prod.snd := by
  induction l with
  | nil => simp [List.lookup] at h
  | cons p t ih =>
      obtain ⟨k', b'⟩ := p
      rw [List.lookup] at h
      cases hk : k == k' with
      | true => rw [hk] at h; cases h; simp
      | false => rw [hk] at h; simpa using Or.inr (ih h)

lemma ruleAction_method_mem {r : Nat} {m : String}
    (h : methodOf (ruleAction r) = some m) : m ∈ engineMethods := by
  unfold ruleAction at h
  cases hl : ruleActions.lookup r with
  | none => rw [hl] at h; simp [methodOf] at h
  | some a =>
      rw [hl, Option.getD_some] at h
      have hmem := lookup_mem_snd hl
      rcases List.mem_map.1 hmem with ⟨p, hp, hpa⟩
      refine List.mem_cons_of_mem _ (List.mem_filterMap.2 ⟨p, hp, ?_⟩)
      rw [hpa]
      exact h

lemma callsOK_buildy (env : Env) (lineno : Int) (calls : List BCall)
    (m : String) (args : List Val) (hm : m ∈ engineMethods)
    (hc : CallsOK calls) : CallsOK (buildy env lineno calls m args).1 := by
  unfold buildy
  cases env.builder m args with
  | ok v => exact callsOK_emit hc hm
  | error e => exact callsOK_emit (callsOK_emit hc hm) bge_mem_engineMethods

lemma callsOK_applyAction (env : Env) (lineno : Int) (rl : Loc)
    (vals : Nat → SVal) (len : Nat) (calls : List BCall)
    (a : Action) (ha : ∀ m, methodOf a = some m → m ∈ engineMethods)
    (hc : CallsOK calls) :
    CallsOK (applyAction env lineno rl vals len calls a).1 := by
  cases a with
  | call m args =>
      have hb := callsOK_buildy env lineno calls m
        (args.map (argEval env rl lineno vals)) (ha m rfl) hc
      rcases hby : buildy env lineno calls m
          (args.map (argEval env rl lineno vals)) with ⟨c1, v⟩
      rw [hby] at hb
      cases v <;> simpa [applyAction, hby] using hb
  | callPair m args snd =>
      have hb := callsOK_buildy env lineno calls m
        (args.map (argEval env rl lineno vals)) (ha m rfl) hc
      rcases hby : buildy env lineno calls m
          (args.map (argEval env rl lineno vals)) with ⟨c1, v⟩
      rw [hby] at hb
      cases v <;> simpa [applyAction, hby] using hb
  | warnCall msg m args =>
      have hc1 : CallsOK (emit calls "build_grammar_error"
          [.str env.fname, .int (lineno + env.firstline), .str msg]) :=
        callsOK_emit hc bge_mem_engineMethods
      have hb := callsOK_buildy env lineno
        (emit calls "build_grammar_error"
          [.str env.fname, .int (lineno + env.firstline), .str msg]) m
        (args.map (argEval env rl lineno vals)) (ha m rfl) hc1
      rcases hby : buildy env lineno (emit calls "build_grammar_error"
          [.str env.fname, .int (lineno + env.firstline), .str msg]) m
          (args.map (argEval env rl lineno vals)) with ⟨c1, v⟩
      rw [hby] at hb
      cases v <;> simpa [applyAction, hby] using hb
  | defaultAct => exact hc
  | setChar c => exact hc
  | setNone => exact hc
  | pass i => exact hc
  | add i j => exact hc
  | sub i j => exact hc
  | mul i j => exact hc
  | div i j => exact hc
  | neg i => exact hc

/-- Calls of either side of a driver transition. -/
def sumCalls : PState ⊕ ParseOut → List BCall
  | .inl s => s.calls
  | .inr o => o.calls

lemma calls_pushState (st : PState) (s : Nat) (v : SVal) (loc : Loc) :
    sumCalls (pushState st s v loc) = st.calls := by
  unfold pushState finish
  dsimp only
  split <;> rfl

lemma calls_readToken (st : PState) : (readToken st).calls = st.calls := by
  unfold readToken
  repeat' split <;> try rfl

lemma calls_stepDefault (st : PState) :
    sumCalls (stepDefault st) = st.calls := by
  unfold stepDefault
  dsimp only
  split <;> rfl

lemma calls_stepBackup (st : PState) :
    sumCalls (stepBackup st) = st.calls := by
  unfold stepBackup stepDefault readToken pushState finish
  dsimp only
  repeat' split <;> try rfl

lemma calls_stepErrlab1 (st : PState) :
    sumCalls (stepErrlab1 st) = st.calls := by
  unfold stepErrlab1 pushState finish
  dsimp only
  repeat' split <;> try rfl

lemma callsOK_yyerrorCall {env : Env} {lineno calls msg}
    (hc : CallsOK calls) : CallsOK (yyerrorCall env lineno calls msg) := by
  unfold yyerrorCall
  split
  · exact hc
  · exact callsOK_emit hc bge_mem_engineMethods

lemma callsOK_stepErrlab {env : Env} {st : PState} (hc : CallsOK st.calls) :
    CallsOK (sumCalls (stepErrlab env st)) := by
  unfold stepErrlab
  dsimp only
  repeat' split
  all_goals dsimp only [sumCalls, finish]
  all_goals
    first
      | exact hc
      | exact callsOK_yyerrorCall hc

lemma callsOK_stepReduce (env : Env) (st : PState) (r : Nat)
    (hc : CallsOK st.calls) : CallsOK (sumCalls (stepReduce env st r)) := by
  have ha := callsOK_applyAction env st.yylineno
    (ruleLocOf st.stack (r2At r)) (fun i => frameVal st.stack (r2At r) i)
    (r2At r) st.calls (ruleAction r)
    (fun m hm => ruleAction_method_mem hm) hc
  unfold stepReduce
  dsimp only
  split
  next calls1 yyval heq =>
    rw [heq] at ha
    rw [calls_pushState]
    exact ha
  next calls1 heq =>
    rw [heq] at ha
    exact ha

lemma callsOK_step (env : Env) (st : PState) (hc : CallsOK st.calls) :
    CallsOK (sumCalls (step env st)) := by
  unfold step
  split
  · rw [calls_stepBackup]; exact hc
  · exact callsOK_stepReduce _ _ _ hc
  · exact callsOK_stepErrlab hc
  · rw [calls_stepErrlab1]; exact hc

lemma callsOK_run {env : Env} (fuel : Nat) (st : PState)
    (hc : CallsOK st.calls) : CallsOK (run env fuel st).calls := by
  induction fuel generalizing st with
  | zero => exact hc
  | succ n ih =>
      have hstep := callsOK_step env st hc
      rw [run]
      rcases hs : step env st with st1 | out
      · rw [hs] at hstep
        exact ih st1 hstep
      · rw [hs] at hstep
        exact hstep

/-- C5 counterexample: there is no input at all — no file name, first
line, builder or token stream — for which the engine invokes a Builder
method named `query` or `custom`; the directive grammar of grammar.c has
no such productions, so the claimed Query/Custom reductions do not exist. -/
theorem no_query_custom_calls_ever :
    ¬ ∃ (fname : String) (fl : Int) (b : Builder) (ts : List Token)
        (c : BCall), c ∈ (yyparseRun fname fl b ts).calls ∧
          (c.1 = "query" ∨ c.1 = "custom") := by
  rintro ⟨fname, fl, b, ts, c, hc, hname⟩
  have hm : c.1 ∈ engineMethods :=
    callsOK_run 100000 (initState ts) (by intro x hx; simp [initState] at hx)
      c hc
  rcases hname with h | h <;> rw [h] at hm <;> revert hm <;> decide

/-- C5 amended: the directive grammar has no Query and no Custom: every
Builder method the engine ever invokes (on any builder and token stream)
belongs to the fixed set `engineMethods`, which contains neither `query`
nor `custom`; the token enumeration compiled into grammar.c likewise has
no QUERY or CUSTOM token, and the symbol-name table has no such symbols —
the Directive variants this parser produces are limited to transaction,
balance, open, close, commodity, pad, price, event, note and document
(with option, include, plugin, pushtag and poptag handled as non-entry
directives). -/
theorem no_query_custom_methods :
    (∀ (fname : String) (fl : Int) (b : Builder) (ts : List Token),
        ∀ c ∈ (yyparseRun fname fl b ts).calls, c.1 ∈ engineMethods) ∧
    "query" ∉ engineMethods ∧ "custom" ∉ engineMethods ∧
    yytokentypeC.lookup "QUERY" = none ∧
    yytokentypeC.lookup "CUSTOM" = none ∧
    "query" ∉ yytnameTerminals ∧ "custom" ∉ yytnameTerminals := by
  refine ⟨?_, by decide, by decide, rfl, rfl, by decide, by decide⟩
  intro fname fl b ts c hc
  exact callsOK_run 100000 (initState ts)
    (by intro x hx; simp [initState] at hx) c hc

/-- C5 witness: the invariant applied to a concrete run — the sole call
of a parse of the empty token stream is to an engine method. -/
theorem no_query_custom_methods_witness :
    ("store_result", [Val.none]).1 ∈ engineMethods :=
  no_query_custom_methods.1 fileN 0 builderRef []
    ("store_result", [Val.none]) (List.Mem.head _)

end BeanG
